import Mathlib

set_option maxRecDepth 100000

/-!
Shallow embedding of caldp/exit_codes.py: the exit-code registry, the
functions explain and is_memory_error, the Linux signal table built by
parsing a header extract, and explain_signal.

Python values that flow through these functions are either ints or
strings, so they are modelled by the sum type PyVal.  Python dicts are
modelled as association lists with insertion-order semantics: assignment
overwrites an existing key in place, otherwise appends.  A Python
exception (KeyError, AssertionError, AttributeError, ValueError) is
modelled by Option: none means the call raised.
-/

/-- A Python value reaching these functions: an int or a str. -/
inductive PyVal where
  | int : Int → PyVal
  | str : String → PyVal
deriving DecidableEq, Repr

/-- Python str() of a PyVal: ints render in decimal, strings are themselves. -/
def pyStr : PyVal → String
  | PyVal.int n => toString n
  | PyVal.str s => s

/-- Python dict assignment d[k] = v: overwrite the key in place if present,
otherwise append the new pair at the end. -/
def dictInsert {α β : Type} [DecidableEq α] (d : List (α × β)) (k : α) (v : β) :
    List (α × β) :=
  match d with
  | [] => [(k, v)]
  | (k1, v1) :: rest =>
      if k1 = k then (k, v) :: rest else (k1, v1) :: dictInsert rest k v

/-- _MEMORY_ERROR_NAMES from exit_codes.py. -/
def _MEMORY_ERROR_NAMES : List String :=
  ["SUBPROCESS_MEMORY_ERROR", "CALDP_MEMORY_ERROR", "CONTAINER_MEMORY_ERROR", "OS_MEMORY_ERROR"]

/-- _EXIT_CODES from exit_codes.py, in declaration order. -/
def _EXIT_CODES : List (String × Int) :=
  [ ("SUCCESS", 0),
    ("GENERIC_ERROR", 1),
    ("CMDLINE_ERROR", 2),
    ("INPUT_TAR_FILE_ERROR", 21),
    ("ASTROQUERY_ERROR", 22),
    ("STAGE1_ERROR", 23),
    ("STAGE2_ERROR", 24),
    ("S3_UPLOAD_ERROR", 25),
    ("S3_DOWNLOAD_ERROR", 26),
    ("BESTREFS_ERROR", 27),
    ("CREATE_PREVIEWS_ERROR", 28),
    ("SUBPROCESS_MEMORY_ERROR", 31),
    ("CALDP_MEMORY_ERROR", 32),
    ("CONTAINER_MEMORY_ERROR", 33),
    ("OS_MEMORY_ERROR", 34),
    ("SVM_ERROR", 40),
    ("MVM_ERROR", 41) ]

/-- _NAME_EXPLANATIONS from exit_codes.py, in declaration order. -/
def _NAME_EXPLANATIONS : List (String × String) :=
  [ ("SUCCESS", "Processing completed successfully."),
    ("GENERIC_ERROR", "An error with no specific CALDP handling occurred somewhere."),
    ("CMDLINE_ERROR", "The program command line invocation was incorrect."),
    ("INPUT_TAR_FILE_ERROR", "An error occurred locating or untarring the inputs tarball."),
    ("ASTROQUERY_ERROR", "An error occurred downloading astroqery: inputs"),
    ("STAGE1_ERROR", "An error occurred in this instrument's stage1 processing step. e.g. calxxx"),
    ("STAGE2_ERROR", "An error occurred in this instrument's stage2 processing step, e.g astrodrizzle"),
    ("SVM_ERROR", "An error occurred while running runsinglehap"),
    ("MVM_ERROR", "An error occurred while running runmultihap"),
    ("S3_UPLOAD_ERROR", "An error occurred uploading the outputs tarball to S3."),
    ("S3_DOWNLOAD_ERROR", "An error occurred downloading inputs from S3."),
    ("BESTREFS_ERROR", "An error occurred computing or downloading CRDS reference files."),
    ("CREATE_PREVIEWS_ERROR", "An error occurrred creating preview files for processed data."),
    ("SUBPROCESS_MEMORY_ERROR", "A Python MemoryError was detected by scanning the process.txt log."),
    ("CALDP_MEMORY_ERROR", "CALDP generated a Python MemoryError during processing or preview creation."),
    ("CONTAINER_MEMORY_ERROR", "The Batch/ECS container runtime killed the job due to memory limits."),
    ("OS_MEMORY_ERROR", "Python raised OSError(Cannot allocate memory...),  possibly fork failure.") ]

/-- The module initialization loop that fills _CODE_TO_NAME: for each
(name, code) it stores code -> name and str(code) -> name, then executes
assert name in _NAME_EXPLANATIONS.  A failing assert aborts the module, so
the result is none when some declared name has no explanation entry. -/
def buildRegistry (nameExpl : List (String × String)) :
    List (String × Int) → List (PyVal × String) → Option (List (PyVal × String))
  | [], acc => some acc
  | (name, code) :: rest, acc =>
      let acc1 := dictInsert (dictInsert acc (PyVal.int code) name)
        (PyVal.str (toString code)) name
      if (nameExpl.lookup name).isSome then buildRegistry nameExpl rest acc1
      else none

/-- _CODE_TO_NAME as built by the module initialization loop over the
declared registry data. -/
def _CODE_TO_NAME : List (PyVal × String) :=
  (buildRegistry _NAME_EXPLANATIONS _EXIT_CODES []).getD []

/-- explain from exit_codes.py.  First the argument is looked up as a key of
_CODE_TO_NAME (an int code or a stringified code); failing that, as a key of
_NAME_EXPLANATIONS (a symbolic name, with globals()[name] modelled as the
_EXIT_CODES lookup the initialization loop performed); otherwise the
unhandled line is returned.  none models a raised exception. -/
def explain (exit_code : PyVal) : Option String :=
  match _CODE_TO_NAME.lookup exit_code with
  | some name =>
      match _NAME_EXPLANATIONS.lookup name with
      | some explanation =>
          some ("EXIT - " ++ name ++ "[" ++ pyStr exit_code ++ "]: " ++ explanation)
      | none => none
  | none =>
      match exit_code with
      | PyVal.str name =>
          match _NAME_EXPLANATIONS.lookup name with
          | some explanation =>
              match _EXIT_CODES.lookup name with
              | some code =>
                  some ("EXIT - " ++ name ++ "[" ++ toString code ++ "]: " ++ explanation)
              | none => none
          | none => some ("EXIT - unhandled exit code: " ++ pyStr exit_code)
      | PyVal.int _ => some ("EXIT - unhandled exit code: " ++ pyStr exit_code)

/-- The list comprehension [globals()[name] for name in _MEMORY_ERROR_NAMES]
inside is_memory_error: the int values bound to the four memory-error names. -/
def memoryErrorCodes : List Int :=
  _MEMORY_ERROR_NAMES.filterMap (fun name => _EXIT_CODES.lookup name)

/-- is_memory_error from exit_codes.py: membership of the argument in the
list of memory-error int codes, or in the list of memory-error name strings.
Python == never identifies an int with a str, which PyVal equality mirrors. -/
def is_memory_error (exit_code : PyVal) : Bool :=
  (memoryErrorCodes.map PyVal.int).contains exit_code
    || (_MEMORY_ERROR_NAMES.map PyVal.str).contains exit_code


/-- _LINUX_SIGNALS_TEXT from exit_codes.py: the extract copied from CentOS
/usr/include/bits/signum.h, verbatim including its alignment spaces. -/
def _LINUX_SIGNALS_TEXT : String :=
  "\n#define SIGHUP          1       /* Hangup (POSIX).  */\n#define SIGINT          2       /* Interrupt (ANSI).  */\n#define SIGQUIT         3       /* Quit (POSIX).  */\n#define SIGILL          4       /* Illegal instruction (ANSI).  */\n#define SIGTRAP         5       /* Trace trap (POSIX).  */\n#define SIGABRT         6       /* Abort (ANSI).  */\n#define SIGIOT          6       /* IOT trap (4.2 BSD).  */\n#define SIGBUS          7       /* BUS error (4.2 BSD).  */\n#define SIGFPE          8       /* Floating-point exception (ANSI).  */\n#define SIGKILL         9       /* Kill, unblockable (POSIX).  */\n#define SIGUSR1         10      /* User-defined signal 1 (POSIX).  */\n#define SIGSEGV         11      /* Segmentation violation (ANSI).  */\n#define SIGUSR2         12      /* User-defined signal 2 (POSIX).  */\n#define SIGPIPE         13      /* Broken pipe (POSIX).  */\n#define SIGALRM         14      /* Alarm clock (POSIX).  */\n#define SIGTERM         15      /* Termination (ANSI).  */\n#define SIGSTKFLT       16      /* Stack fault.  */\n#define SIGCHLD         17      /* Child status has changed (POSIX).  */\n#define SIGCONT         18      /* Continue (POSIX).  */\n#define SIGSTOP         19      /* Stop, unblockable (POSIX).  */\n#define SIGTSTP         20      /* Keyboard stop (POSIX).  */\n#define SIGTTIN         21      /* Background read from tty (POSIX).  */\n#define SIGTTOU         22      /* Background write to tty (POSIX).  */\n#define SIGURG          23      /* Urgent condition on socket (4.2 BSD).  */\n#define SIGXCPU         24      /* CPU limit exceeded (4.2 BSD).  */\n#define SIGXFSZ         25      /* File size limit exceeded (4.2 BSD).  */\n#define SIGVTALRM       26      /* Virtual alarm clock (4.2 BSD).  */\n#define SIGPROF         27      /* Profiling alarm clock (4.2 BSD).  */\n#define SIGWINCH        28      /* Window size change (4.3 BSD, Sun).  */\n#define SIGIO           29      /* I/O now possible (4.2 BSD).  */\n#define SIGPWR          30      /* Power failure restart (System V).  */\n#define SIGSYS          31      /* Bad system call.  */\n"

/-- Python str.strip() on a character list: whitespace removed from both ends. -/
def pyStripList (cs : List Char) : List Char :=
  ((cs.dropWhile Char.isWhitespace).reverse.dropWhile Char.isWhitespace).reverse

/-- Split a character list at every occurrence of sep, keeping the pieces:
on newline-separated text with no trailing newline this is splitlines(). -/
def splitOnChar (sep : Char) : List Char → List (List Char)
  | [] => [[]]
  | c :: rest =>
      let r := splitOnChar sep rest
      if c = sep then [] :: r
      else
        match r with
        | [] => [[c]]
        | h :: t => (c :: h) :: t

/-- Decimal digits to a Nat, none on a non-digit character. -/
def digitsToNatAux : List Char → Nat → Option Nat
  | [], acc => some acc
  | c :: rest, acc =>
      if c.isDigit then digitsToNatAux rest (acc * 10 + (c.toNat - 48)) else none

/-- Python int() on a token with no inner whitespace: an optional sign then
at least one decimal digit; none models the ValueError otherwise. -/
def pyIntOfChars : List Char → Option Int
  | [] => none
  | c :: rest =>
      if c = Char.ofNat 45 then
        if rest.isEmpty then none else (digitsToNatAux rest 0).map (fun n => -(n : Int))
      else if c = Char.ofNat 43 then
        if rest.isEmpty then none else (digitsToNatAux rest 0).map (fun n => (n : Int))
      else (digitsToNatAux (c :: rest) 0).map (fun n => (n : Int))

/-- The match of re.match with pattern caret, non-space run, space run,
group 1 non-space run, space run, group 2 non-space run, space run, group 3
dot-star: the three groups, or none when the line does not match (on which
match.group raises AttributeError). -/
def reMatchLine (cs : List Char) : Option (List Char × List Char × List Char) :=
  let t0 := cs.takeWhile (fun c => !c.isWhitespace)
  let r0 := cs.dropWhile (fun c => !c.isWhitespace)
  let w0 := r0.takeWhile (fun c => c.isWhitespace)
  let r1 := r0.dropWhile (fun c => c.isWhitespace)
  let g1 := r1.takeWhile (fun c => !c.isWhitespace)
  let r2 := r1.dropWhile (fun c => !c.isWhitespace)
  let w1 := r2.takeWhile (fun c => c.isWhitespace)
  let r3 := r2.dropWhile (fun c => c.isWhitespace)
  let g2 := r3.takeWhile (fun c => !c.isWhitespace)
  let r4 := r3.dropWhile (fun c => !c.isWhitespace)
  let w2 := r4.takeWhile (fun c => c.isWhitespace)
  let g3 := r4.dropWhile (fun c => c.isWhitespace)
  if t0.isEmpty || w0.isEmpty || g1.isEmpty || w1.isEmpty || g2.isEmpty || w2.isEmpty then
    none
  else
    some (g1, g2, g3)

/-- One iteration of the signal-table loop: regex-match the line, parse the
signal number with int(), take the slice group3[2:-2] stripped of whitespace
as the description, and format the explanation.  none models a raised
exception (no regex match, or int() on a non-number). -/
def parseSignalLine (cs : List Char) : Option (Int × String) :=
  match reMatchLine cs with
  | none => none
  | some (sigid, numtok, rest) =>
      match pyIntOfChars numtok with
      | none => none
      | some signum =>
          let sigtext := String.mk (pyStripList ((rest.drop 2).take (rest.length - 4)))
          some (signum,
            "Killed by UNIX signal " ++ String.mk sigid ++ "[" ++ toString signum ++ "]: '" ++
              sigtext ++ "'")

/-- The signal-table loop over the split lines, filling a dict in order. -/
def buildSignalDict : List (List Char) → List (Int × String) → Option (List (Int × String))
  | [], acc => some acc
  | line :: rest, acc =>
      match parseSignalLine line with
      | none => none
      | some (k, v) => buildSignalDict rest (dictInsert acc k v)

/-- SIGNUM_EXPLANATION as built by the module initialization loop over
_LINUX_SIGNALS_TEXT.strip().splitlines(). -/
def SIGNUM_EXPLANATION : List (Int × String) :=
  (buildSignalDict (splitOnChar (Char.ofNat 10) (pyStripList _LINUX_SIGNALS_TEXT.toList)) []).getD []

/-- explain_signal from exit_codes.py: a plain dict lookup prefixed with
"EXIT - ".  none models the KeyError an unknown signal number raises. -/
def explain_signal (signum : Int) : Option String :=
  (SIGNUM_EXPLANATION.lookup signum).map (fun s => "EXIT - " ++ s)


/-- Whether the first list heads the second, character by character. -/
def leadsWith : List Char → List Char → Bool
  | [], _ => true
  | _ :: _, [] => false
  | p :: ps, c :: cs => p == c && leadsWith ps cs

/-- Whether pat occurs contiguously inside the second list. -/
def hasSubList (pat : List Char) : List Char → Bool
  | [] => pat.isEmpty
  | c :: rest => leadsWith pat (c :: rest) || hasSubList pat rest

/-- Whether the string pat occurs contiguously inside s. -/
def strContainsSub (s pat : String) : Bool :=
  hasSubList pat.toList s.toList

/-! ## Helper lemmas shared by the claims -/

/-- A successful association-list lookup returns a pair of the list. -/
theorem pair_mem_of_lookup {α β : Type} [BEq α] [LawfulBEq α] {l : List (α × β)} {k : α}
    {v : β} (h : l.lookup k = some v) : (k, v) ∈ l := by
  rcases List.lookup_eq_some_iff.mp h with ⟨l1, l2, rfl, -⟩
  simp

/-- Every value stored in _CODE_TO_NAME has an explanation entry. -/
theorem codeToName_explained :
    ∀ p ∈ _CODE_TO_NAME, (_NAME_EXPLANATIONS.lookup p.2).isSome := by decide

/-- Every key of _NAME_EXPLANATIONS is a declared name of _EXIT_CODES. -/
theorem nameExpl_key_declared :
    ∀ p ∈ _NAME_EXPLANATIONS, (_EXIT_CODES.lookup p.1).isSome := by decide

/-- Every key of _CODE_TO_NAME is a declared int value or its string form. -/
theorem codeToName_key_declared :
    ∀ p ∈ _CODE_TO_NAME, ∃ q ∈ _EXIT_CODES,
      p.1 = PyVal.int q.2 ∨ p.1 = PyVal.str (toString q.2) := by decide

/-- Every key of _NAME_EXPLANATIONS equals some declared name. -/
theorem nameExpl_key_is_name :
    ∀ p ∈ _NAME_EXPLANATIONS, ∃ q ∈ _EXIT_CODES, p.1 = q.1 := by decide

/-- The memory-error code values resolve to 31, 32, 33, 34. -/
theorem memoryErrorCodes_eq : memoryErrorCodes = [31, 32, 33, 34] := by decide

/-- Every key of the signal table lies between 1 and 31. -/
theorem signal_key_range :
    ∀ p ∈ SIGNUM_EXPLANATION, 1 ≤ p.1 ∧ p.1 ≤ 31 := by decide

/-! ## The claims -/

/-- C1: is_memory_error is true exactly for the int values 31, 32, 33, 34 and
the four exact memory-error name strings, and false for every other input;
it is a total Bool-valued function, so it never raises. -/
theorem claim1_is_memory_error_exact_set (x : PyVal) :
    is_memory_error x = true ↔
      x = PyVal.int 31 ∨ x = PyVal.int 32 ∨ x = PyVal.int 33 ∨ x = PyVal.int 34 ∨
      x = PyVal.str "SUBPROCESS_MEMORY_ERROR" ∨ x = PyVal.str "CALDP_MEMORY_ERROR" ∨
      x = PyVal.str "CONTAINER_MEMORY_ERROR" ∨ x = PyVal.str "OS_MEMORY_ERROR" := by
  have hm : memoryErrorCodes = [31, 32, 33, 34] := memoryErrorCodes_eq
  cases x with
  | int n =>
      simp [is_memory_error, hm, _MEMORY_ERROR_NAMES, List.contains, List.elem_eq_mem]
  | str s =>
      simp [is_memory_error, hm, _MEMORY_ERROR_NAMES, List.contains, List.elem_eq_mem]

/-- C2: for every declared (name, value) pair, explain applied to the int
value, to the stringified value and to the symbolic name returns the same
string. -/
theorem claim2_explain_value_str_name_agree :
    ∀ p ∈ _EXIT_CODES,
      explain (PyVal.str (toString p.2)) = explain (PyVal.int p.2) ∧
      explain (PyVal.str p.1) = explain (PyVal.int p.2) := by decide

/-- Witness for C2 at the declared pair (SUCCESS, 0). -/
theorem claim2_witness :
    explain (PyVal.str (toString (("SUCCESS", (0 : Int)) : String × Int).2)) =
        explain (PyVal.int (("SUCCESS", (0 : Int)) : String × Int).2) ∧
      explain (PyVal.str (("SUCCESS", (0 : Int)) : String × Int).1) =
        explain (PyVal.int (("SUCCESS", (0 : Int)) : String × Int).2) :=
  claim2_explain_value_str_name_agree ("SUCCESS", 0) (by decide)

/-- C5: for every declared code, explain on the int value, the stringified
value and the exact name yields the formatted line EXIT - NAME[value]:
explanation, built from that code entry of the registry. -/
theorem claim5_explain_format :
    ∀ p ∈ _EXIT_CODES,
      (_NAME_EXPLANATIONS.lookup p.1).isSome ∧
      explain (PyVal.int p.2) =
        some ("EXIT - " ++ p.1 ++ "[" ++ toString p.2 ++ "]: " ++
          (_NAME_EXPLANATIONS.lookup p.1).getD "") ∧
      explain (PyVal.str (toString p.2)) = explain (PyVal.int p.2) ∧
      explain (PyVal.str p.1) = explain (PyVal.int p.2) := by decide

/-- Witness for C5 at the declared pair (GENERIC_ERROR, 1). -/
theorem claim5_witness :
    (_NAME_EXPLANATIONS.lookup (("GENERIC_ERROR", (1 : Int)) : String × Int).1).isSome ∧
      explain (PyVal.int (("GENERIC_ERROR", (1 : Int)) : String × Int).2) =
        some ("EXIT - " ++ (("GENERIC_ERROR", (1 : Int)) : String × Int).1 ++ "[" ++
          toString (("GENERIC_ERROR", (1 : Int)) : String × Int).2 ++ "]: " ++
          (_NAME_EXPLANATIONS.lookup (("GENERIC_ERROR", (1 : Int)) : String × Int).1).getD "") ∧
      explain (PyVal.str (toString (("GENERIC_ERROR", (1 : Int)) : String × Int).2)) =
        explain (PyVal.int (("GENERIC_ERROR", (1 : Int)) : String × Int).2) ∧
      explain (PyVal.str (("GENERIC_ERROR", (1 : Int)) : String × Int).1) =
        explain (PyVal.int (("GENERIC_ERROR", (1 : Int)) : String × Int).2) :=
  claim5_explain_format ("GENERIC_ERROR", 1) (by decide)

/-- C7: no two declared codes share a name and no two share an int value, so
the declared name-to-value table is a bijection between its names and its
values. -/
theorem claim7_registry_bijection :
    (_EXIT_CODES.map Prod.fst).Nodup ∧ (_EXIT_CODES.map Prod.snd).Nodup := by decide

/-- C9: for each declared memory-error value v, is_memory_error accepts the
int v and the exact name but rejects the stringified form str(v), unlike
explain. -/
theorem claim9_is_memory_error_rejects_stringified :
    memoryErrorCodes = [31, 32, 33, 34] ∧
    ∀ v ∈ memoryErrorCodes,
      is_memory_error (PyVal.str (toString v)) = false ∧
      is_memory_error (PyVal.int v) = true := by decide

/-- Witness for C9 at the memory-error value 31. -/
theorem claim9_witness :
    is_memory_error (PyVal.str (toString (31 : Int))) = false ∧
      is_memory_error (PyVal.int 31) = true :=
  claim9_is_memory_error_rejects_stringified.2 31 (by decide)

/-- C3: explain never raises, and on any input that is neither a declared int
value, nor the string form of a declared value, nor a declared name, it
returns the unhandled line embedding the given input. -/
theorem claim3_explain_total_unhandled (x : PyVal) :
    (explain x).isSome = true ∧
    ((∀ p ∈ _EXIT_CODES,
        x ≠ PyVal.int p.2 ∧ x ≠ PyVal.str (toString p.2) ∧ x ≠ PyVal.str p.1) →
      explain x = some ("EXIT - unhandled exit code: " ++ pyStr x)) := by
  constructor
  · cases hc : _CODE_TO_NAME.lookup x with
    | some name =>
        have hsome := codeToName_explained _ (pair_mem_of_lookup hc)
        cases he : _NAME_EXPLANATIONS.lookup name with
        | some e => simp [explain, hc, he]
        | none => rw [he] at hsome; simp at hsome
    | none =>
        cases x with
        | int n => simp [explain, hc]
        | str s =>
            cases he : _NAME_EXPLANATIONS.lookup s with
            | some e =>
                have hsome := nameExpl_key_declared _ (pair_mem_of_lookup he)
                cases hc2 : _EXIT_CODES.lookup s with
                | some c => simp [explain, hc, he, hc2]
                | none => rw [hc2] at hsome; simp at hsome
            | none => simp [explain, hc, he]
  · intro h
    have hc : _CODE_TO_NAME.lookup x = none := by
      cases hc : _CODE_TO_NAME.lookup x with
      | none => rfl
      | some name =>
          exfalso
          rcases codeToName_key_declared _ (pair_mem_of_lookup hc) with ⟨q, hq, hcase⟩
          rcases h q hq with ⟨h1, h2, h3⟩
          rcases hcase with hcase | hcase
          · exact h1 hcase
          · exact h2 hcase
    cases x with
    | int n => simp [explain, hc]
    | str s =>
        have he : _NAME_EXPLANATIONS.lookup s = none := by
          cases he : _NAME_EXPLANATIONS.lookup s with
          | none => rfl
          | some e =>
              exfalso
              rcases nameExpl_key_is_name _ (pair_mem_of_lookup he) with ⟨q, hq, hname⟩
              exact (h q hq).2.2 (congrArg PyVal.str hname)
        simp [explain, hc, he]

/-- Witness for C3 at the undeclared int 999. -/
theorem claim3_witness :
    explain (PyVal.int 999) =
      some ("EXIT - unhandled exit code: " ++ pyStr (PyVal.int 999)) :=
  (claim3_explain_total_unhandled (PyVal.int 999)).2 (by decide)

/-- C4: explain_signal on an int outside 1..31 fails with a lookup error,
modelled as none, rather than returning a fallback string. -/
theorem claim4_explain_signal_out_of_range (s : Int) (h : s < 1 ∨ 31 < s) :
    explain_signal s = none := by
  cases hl : SIGNUM_EXPLANATION.lookup s with
  | none => simp [explain_signal, hl]
  | some v =>
      exfalso
      have hr := signal_key_range _ (pair_mem_of_lookup hl)
      simp at hr
      omega

/-- Witness for C4 at signal number 99. -/
theorem claim4_witness : explain_signal 99 = none :=
  claim4_explain_signal_out_of_range 99 (by decide)

/-- C6: explain_signal formats 8 as SIGFPE with the floating-point text and
11 as SIGSEGV with the segmentation text, each as the full EXIT line with
the quoted description. -/
theorem claim6_explain_signal_8_11 :
    explain_signal 8 =
      some "EXIT - Killed by UNIX signal SIGFPE[8]: 'Floating-point exception (ANSI).'" ∧
    explain_signal 11 =
      some "EXIT - Killed by UNIX signal SIGSEGV[11]: 'Segmentation violation (ANSI).'" ∧
    strContainsSub
      "EXIT - Killed by UNIX signal SIGFPE[8]: 'Floating-point exception (ANSI).'"
      "SIGFPE[8]" = true ∧
    strContainsSub
      "EXIT - Killed by UNIX signal SIGFPE[8]: 'Floating-point exception (ANSI).'"
      "Floating-point exception" = true ∧
    strContainsSub
      "EXIT - Killed by UNIX signal SIGSEGV[11]: 'Segmentation violation (ANSI).'"
      "SIGSEGV[11]" = true ∧
    strContainsSub
      "EXIT - Killed by UNIX signal SIGSEGV[11]: 'Segmentation violation (ANSI).'"
      "Segmentation violation" = true := by
  refine ⟨by decide, by decide, by decide, by decide, by decide, by decide⟩

/-- C10: the signal table is defined for exactly the numbers 1 through 31,
explain_signal succeeds on exactly those, and for the doubly declared number
6 the later SIGIOT line overwrote the earlier SIGABRT line. -/
theorem claim10_signal_table_keys :
    SIGNUM_EXPLANATION.map Prod.fst =
      [1, 2, 3, 4, 5, 6, 7, 8, 9, 10, 11, 12, 13, 14, 15, 16, 17, 18, 19, 20,
        21, 22, 23, 24, 25, 26, 27, 28, 29, 30, 31] ∧
    SIGNUM_EXPLANATION.lookup 6 =
      some "Killed by UNIX signal SIGIOT[6]: 'IOT trap (4.2 BSD).'" ∧
    strContainsSub ((SIGNUM_EXPLANATION.lookup 6).getD "") "SIGABRT" = false ∧
    ∀ n : Int, (explain_signal n).isSome ↔ 1 ≤ n ∧ n ≤ 31 := by
  have hkeys : SIGNUM_EXPLANATION.map Prod.fst =
      [1, 2, 3, 4, 5, 6, 7, 8, 9, 10, 11, 12, 13, 14, 15, 16, 17, 18, 19, 20,
        21, 22, 23, 24, 25, 26, 27, 28, 29, 30, 31] := by decide
  refine ⟨hkeys, by decide, by decide, fun n => ?_⟩
  rw [explain_signal, Option.isSome_map']
  constructor
  · intro hs
    rcases Option.isSome_iff_exists.mp hs with ⟨v, hv⟩
    have hr := signal_key_range _ (pair_mem_of_lookup hv)
    simp at hr
    omega
  · intro hn
    have hk : n ∈ SIGNUM_EXPLANATION.map Prod.fst := by
      rw [hkeys]
      simp only [List.mem_cons, List.mem_singleton]
      omega
    rcases List.mem_map.mp hk with ⟨p, hp, hfst⟩
    rw [List.lookup_isSome_iff]
    exact ⟨p, hp, by simp [hfst]⟩

/-- C8 counterexample: registry construction run on data in which the two
declared names A and B share the int value 1 completes silently instead of
raising, with the later name overwriting the earlier in the value-to-name
dict. -/
theorem claim8_counterexample :
    buildRegistry [("A", "a"), ("B", "b")] [("A", 1), ("B", 1)] [] =
      some [(PyVal.int 1, "B"), (PyVal.str "1", "B")] := by decide

/-- C8 amended: construction fails fast, via the per-iteration assert,
exactly when some declared name lacks an explanation entry; a duplicate int
value is not detected and construction completes.  Stated over arbitrary
declared data, for any loop accumulator. -/
theorem claim8_assert_missing_explanation (nameExpl : List (String × String))
    (exitCodes : List (String × Int)) :
    ∀ acc, buildRegistry nameExpl exitCodes acc = none ↔
      ∃ p ∈ exitCodes, nameExpl.lookup p.1 = none := by
  induction exitCodes with
  | nil => intro acc; simp [buildRegistry]
  | cons q rest ih =>
      intro acc
      obtain ⟨name, code⟩ := q
      by_cases h : (nameExpl.lookup name).isSome
      · have hne : nameExpl.lookup name ≠ none := by
          intro hy
          rw [hy] at h
          simp at h
        simp only [buildRegistry, h, if_pos, ih, List.mem_cons]
        constructor
        · rintro ⟨p, hp, hnone⟩
          exact ⟨p, Or.inr hp, hnone⟩
        · rintro ⟨p, hp | hp, hnone⟩
          · exact absurd hnone (by rw [hp]; exact hne)
          · exact ⟨p, hp, hnone⟩
      · have hz : nameExpl.lookup name = none := by
          cases hy : nameExpl.lookup name with
          | none => rfl
          | some e => rw [hy] at h; simp at h
        simp only [buildRegistry, h, if_neg, List.mem_cons]
        constructor
        · intro _
          exact ⟨(name, code), Or.inl rfl, hz⟩
        · intro _
          rfl
